import Mathlib

/-!
Verification of the schema-analysis, query-suggestion and result-rendering
engine of `query_db_direct.py` (class `DirectDBQuery`).

The Python code is shallowly embedded: each method that the claims touch is
translated into an executable Lean function over explicit data.  Python
dictionaries become insertion-ordered association lists, Python string
operations become operations on `String` (backed by `List Char`), and the
fallible introspection primitive `get_table_schema` becomes a function into
`Option`.
-/

namespace QueryDB

/-! ### String helpers mirroring Python's `in`, `startswith`, `endswith`,
slicing and `ljust`. -/

/-- Does `needle` occur as a contiguous sublist of `hay`? -/
def isSubListOf (needle : List Char) : List Char → Bool
  | [] => needle.isEmpty
  | c :: cs => needle.isPrefixOf (c :: cs) || isSubListOf needle cs

/-- Python `needle in hay` (substring containment). -/
def containsSub (hay needle : String) : Bool :=
  isSubListOf needle.toList hay.toList

/-- Python `s.startswith(p)`. -/
def startsWithS (s p : String) : Bool :=
  p.toList.isPrefixOf s.toList

/-- Python `s.endswith(p)`. -/
def endsWithS (s p : String) : Bool :=
  p.toList.isSuffixOf s.toList

/-- Python `s[:n]` on a string. -/
def strTake (s : String) (n : Nat) : String :=
  String.mk (s.toList.take n)

/-- Python `s.ljust(w)`: pad with spaces on the right up to width `w`. -/
def ljust (s : String) (w : Nat) : String :=
  s ++ String.mk (List.replicate (w - s.length) ' ')

/-- Python `s.upper()` (character-wise, which agrees with Python on the ASCII
identifiers this tool manipulates). -/
def strUpper (s : String) : String :=
  String.mk (s.toList.map Char.toUpper)

/-- Python `s.lower()` (character-wise). -/
def strLower (s : String) : String :=
  String.mk (s.toList.map Char.toLower)

/-- A run of `n` copies of character `c`, Python `c * n`. -/
def charRepeat (c : Char) (n : Nat) : String :=
  String.mk (List.replicate n c)

/-- Split a reversed digit list into groups of three (low-order digits first). -/
def chunk3 : List Char → List (List Char)
  | [] => []
  | [a] => [[a]]
  | [a, b] => [[a, b]]
  | a :: b :: c :: rest => [a, b, c] :: chunk3 rest

/-- Python's thousands-separated format of a natural number. -/
def commaFormat (n : Nat) : String :=
  String.mk (List.intercalate [','] ((chunk3 (Nat.repr n).toList.reverse).reverse.map List.reverse))

/-! ### Data model

`ColumnInfo` and `SchemaInfo` mirror the dictionaries built by
`DirectDBQuery.get_table_schema`; `TableAnalysis` mirrors the dictionary
built by `DirectDBQuery._analyze_table_schema` (the always-empty
`likely_relationships` entry is omitted: the code never writes to it). -/

structure ColumnInfo where
  name : String
  type : String
  not_null : Bool
  primary_key : Bool
deriving Repr, DecidableEq

structure SchemaInfo where
  table : String
  columns : List ColumnInfo
  row_count : Nat
  indexes : List String
deriving Repr, DecidableEq

structure TableAnalysis where
  row_count : Nat
  column_types : List (String × String)
  date_columns : List String
  numeric_columns : List String
  text_columns : List String
  primary_keys : List String
  has_timestamps : Bool
deriving Repr, DecidableEq

/-- Python dict assignment `d[k] = v` on an insertion-ordered association
list: update in place if the key exists, append otherwise. -/
def dictInsert (d : List (String × String)) (k v : String) : List (String × String) :=
  if d.any (fun p => p.1 == k) then
    d.map (fun p => if p.1 == k then (k, v) else p)
  else
    d ++ [(k, v)]

/-! ### Column classifier (`DirectDBQuery._analyze_table_schema`) -/

/-- Type-based numeric test from `_analyze_table_schema`. -/
def isNumericType (col_type : String) : Bool :=
  containsSub col_type "INT" || containsSub col_type "REAL" ||
  containsSub col_type "FLOAT" || containsSub col_type "NUMERIC"

/-- Type-based text test from `_analyze_table_schema`. -/
def isTextType (col_type : String) : Bool :=
  containsSub col_type "TEXT" || containsSub col_type "CHAR" ||
  containsSub col_type "VARCHAR"

/-- Type-based temporal test from `_analyze_table_schema`. -/
def isDateType (col_type : String) : Bool :=
  containsSub col_type "DATE" || containsSub col_type "TIME"

/-- Temporal-intent keywords tested against the lowercased column name. -/
def temporalKeywords : List String := ["created", "updated", "modified", "time", "date"]

/-- Keywords that disqualify a column name from the timestamp heuristic. -/
def disqualifyingKeywords : List String := ["score", "label", "amount", "value"]

/-- The name-based timestamp heuristic: some temporal keyword occurs in the
lowercased name and no disqualifying keyword does. -/
def nameTimestampHeuristic (col_name : String) : Bool :=
  (temporalKeywords.any (fun k => containsSub (strLower col_name) k)) &&
  !(disqualifyingKeywords.any (fun k => containsSub (strLower col_name) k))

/-- The `column_types` and `primary_keys` bookkeeping statements of the
column loop of `_analyze_table_schema`. -/
def recordColumn (a : TableAnalysis) (col_name col_type : String) (pk : Bool) :
    TableAnalysis :=
  let a := { a with column_types := dictInsert a.column_types col_name col_type }
  if pk then { a with primary_keys := a.primary_keys ++ [col_name] } else a

/-- The declared-type classification branch of the column loop. -/
def typeClassify (a : TableAnalysis) (col_name col_type : String) : TableAnalysis :=
  if isNumericType col_type then
    { a with numeric_columns := a.numeric_columns ++ [col_name] }
  else if isTextType col_type then
    { a with text_columns := a.text_columns ++ [col_name] }
  else if isDateType col_type then
    { a with date_columns := a.date_columns ++ [col_name] }
  else a

/-- The name-based timestamp detection branch of the column loop. -/
def timestampStep (a : TableAnalysis) (col_name : String) : TableAnalysis :=
  if nameTimestampHeuristic col_name then
    let a := { a with has_timestamps := true }
    if a.date_columns.contains col_name then a
    else { a with date_columns := a.date_columns ++ [col_name] }
  else a

/-- One iteration of the column loop of `_analyze_table_schema`: bookkeeping,
then type classification, then timestamp detection, exactly in source order. -/
def analyzeColumn (a : TableAnalysis) (col : ColumnInfo) : TableAnalysis :=
  timestampStep
    (typeClassify (recordColumn a col.name (strUpper col.type) col.primary_key)
      col.name (strUpper col.type))
    col.name

/-- The initial analysis dictionary of `_analyze_table_schema`. -/
def emptyAnalysis (row_count : Nat) : TableAnalysis :=
  { row_count := row_count
    column_types := []
    date_columns := []
    numeric_columns := []
    text_columns := []
    primary_keys := []
    has_timestamps := false }

/-- `DirectDBQuery._analyze_table_schema` (its `table_name` parameter is
unused in the Python body and is dropped here). -/
def analyzeTableSchema (schema : SchemaInfo) : TableAnalysis :=
  schema.columns.foldl analyzeColumn (emptyAnalysis schema.row_count)

/-! ### Query suggestion (`DirectDBQuery._generate_table_queries`) -/

structure QueryCandidate where
  name : String
  description : String
  sql : String
deriving Repr, DecidableEq

def sampleQuery (t : String) : QueryCandidate :=
  { name := "sample_" ++ t
    description := "Sample data from " ++ t
    sql := "SELECT * FROM " ++ t ++ " LIMIT 5" }

def countQuery (t : String) : QueryCandidate :=
  { name := "count_" ++ t
    description := "Total rows in " ++ t
    sql := "SELECT COUNT(*) as total_rows FROM " ++ t }

def recentQuery (t date_col : String) : QueryCandidate :=
  { name := "recent_" ++ t
    description := "Recent records from " ++ t
    sql := "SELECT * FROM " ++ t ++ " ORDER BY " ++ date_col ++ " DESC LIMIT 10" }

def dateRangeQuery (t date_col : String) : QueryCandidate :=
  { name := "date_range_" ++ t
    description := "Date range in " ++ t
    sql := "SELECT MIN(" ++ date_col ++ ") as earliest, MAX(" ++ date_col ++
      ") as latest FROM " ++ t }

def statsQuery (t num_col : String) : QueryCandidate :=
  { name := "stats_" ++ t ++ "_" ++ num_col
    description := "Statistics for " ++ num_col ++ " in " ++ t
    sql := "SELECT AVG(" ++ num_col ++ ") as avg_" ++ num_col ++ ", MIN(" ++
      num_col ++ ") as min_" ++ num_col ++ ", MAX(" ++ num_col ++ ") as max_" ++
      num_col ++ " FROM " ++ t }

def popularQuery (t text_col : String) : QueryCandidate :=
  { name := "popular_" ++ text_col ++ "_" ++ t
    description := "Most common values in " ++ text_col
    sql := "SELECT " ++ text_col ++ ", COUNT(*) as frequency FROM " ++ t ++
      " GROUP BY " ++ text_col ++ " ORDER BY frequency DESC LIMIT 10" }

/-- Keywords that make a text column eligible for a `popular_*` candidate. -/
def textNameKeywords : List String := ["title", "name", "description", "summary"]

/-- `DirectDBQuery._generate_table_queries`.  The two Python `for` loops with a
guarded `append` are rendered as left folds over the sliced column lists. -/
def generateTableQueries (table_name : String) (ta : TableAnalysis) : List QueryCandidate :=
  let queries : List QueryCandidate := []
  let queries := if ta.row_count > 0 then
      queries ++ [sampleQuery table_name, countQuery table_name]
    else queries
  let queries := match ta.date_columns with
    | [] => queries
    | date_col :: _ =>
        queries ++ [recentQuery table_name date_col, dateRangeQuery table_name date_col]
  let queries := (ta.numeric_columns.take 3).foldl (fun qs num_col =>
      if containsSub (strLower num_col) "id" then qs
      else qs ++ [statsQuery table_name num_col]) queries
  let queries := (ta.text_columns.take 2).foldl (fun qs text_col =>
      if textNameKeywords.any (fun k => containsSub (strLower text_col) k) then
        qs ++ [popularQuery table_name text_col]
      else qs) queries
  queries

/-! ### Database-wide insights (`DirectDBQuery._generate_database_insights`) -/

/-- The candidate relationship triples (from-table, column, to-table) collected
by the nested loops of `_generate_database_insights`, in loop order. -/
def potentialRelationships (tables_analysis : List (String × TableAnalysis)) :
    List (String × String × String) :=
  let table_names := tables_analysis.map Prod.fst
  tables_analysis.flatMap (fun ta =>
    ta.2.column_types.flatMap (fun ct =>
      (table_names.filter (fun other_table =>
        other_table != ta.1 &&
        (startsWithS (strLower ct.1) (strLower other_table) ||
         endsWithS (strLower ct.1) (strLower other_table) ||
         containsSub (strLower ct.1) (strLower other_table)))).map
        (fun other_table => (ta.1, ct.1, other_table))))

/-- The formatted relationship string `table.column -> other_table`. -/
def relString (e : String × String × String) : String :=
  e.1 ++ "." ++ e.2.1 ++ " -> " ++ e.2.2

/-- The summary insight line (table count plain, row total comma-formatted). -/
def summaryLine (total_tables total_rows : Nat) : String :=
  "Database contains " ++ toString total_tables ++ " tables with " ++
  commaFormat total_rows ++ " total rows"

/-- Insert into a descending-by-count list, after every entry whose count is
at least the new one. -/
def insertByCountDesc (x : String × Nat) : List (String × Nat) → List (String × Nat)
  | [] => [x]
  | y :: ys => if y.2 < x.2 then x :: y :: ys else y :: insertByCountDesc x ys

/-- Python `sorted(pairs, key=lambda p: p[1], reverse=True)`: a stable
descending sort by row count, as an insertion sort processing the pairs in
their original order. -/
def sortByCountDesc (l : List (String × Nat)) : List (String × Nat) :=
  l.foldl (fun acc x => insertByCountDesc x acc) []

/-- `DirectDBQuery._generate_database_insights`. -/
def generateDatabaseInsights (tables_analysis : List (String × TableAnalysis)) :
    List String :=
  let total_tables := tables_analysis.length
  let total_rows := (tables_analysis.map (fun p => p.2.row_count)).sum
  let insights := [summaryLine total_tables total_rows]
  let largest_tables :=
    (sortByCountDesc (tables_analysis.map (fun p => (p.1, p.2.row_count)))).take 3
  let insights := match largest_tables with
    | [] => insights
    | top :: _ =>
        if top.2 > 0 then
          insights ++ ["Largest tables: " ++ String.intercalate ", "
            ((largest_tables.filter (fun p => p.2 > 0)).map
              (fun p => p.1 ++ " (" ++ commaFormat p.2 ++ " rows)"))]
        else insights
  let rels := (potentialRelationships tables_analysis).map relString
  match rels with
  | [] => insights
  | _ => insights ++ ["Potential relationships: " ++
      String.intercalate ", " (rels.take 3)]

/-! ### Whole-database analysis (`DirectDBQuery.analyze_database_schema`)

`get_table_names` and `get_table_schema` are the introspection primitives; a
schema result of `none` models the `error` dictionary that makes the loop
`continue` past the table. -/

structure DatabaseAnalysis where
  database_path : String
  tables : List (String × TableAnalysis)
  suggested_queries : List QueryCandidate
  insights : List String
deriving Repr, DecidableEq

/-- `DirectDBQuery.analyze_database_schema`: early return on an empty table
list, otherwise analyze each introspectable table, collect its suggested
queries, and finish with the database-wide insights. -/
def analyzeDatabaseSchema (db_path : String) (tableNames : List String)
    (getSchema : String → Option SchemaInfo) : DatabaseAnalysis :=
  if tableNames.isEmpty then
    { database_path := db_path, tables := [], suggested_queries := [], insights := [] }
  else
    let step := fun (acc : List (String × TableAnalysis) × List QueryCandidate)
        (table : String) =>
      match getSchema table with
      | none => acc
      | some schema =>
          let table_analysis := analyzeTableSchema schema
          (acc.1 ++ [(table, table_analysis)],
           acc.2 ++ generateTableQueries table table_analysis)
    let res := tableNames.foldl step ([], [])
    { database_path := db_path
      tables := res.1
      suggested_queries := res.2
      insights := generateDatabaseInsights res.1 }

/-! ### Result renderer (`DirectDBQuery._format_table_results`)

A row is an insertion-ordered mapping from column name to the already
stringified cell value (`str(...)` is applied at the model boundary); a batch
is the list of rows of one statement's results. -/

/-- A result row: insertion-ordered column-to-value mapping. -/
abbrev Row := List (String × String)

/-- Python `str(row.get(col, ''))`. -/
def rowGet (row : Row) (col : String) : String :=
  match (List.find? (fun p => p.1 == col) row) with
  | some p => p.2
  | none => ""

/-- Column names taken from the first row's keys (`list(results[0].keys())`). -/
def batchColumns (results : List Row) : List String :=
  match results with
  | [] => []
  | r :: _ => List.map Prod.fst r

/-- Column width: max of header length and the longest value among the first
20 rows, clamped to 30. -/
def colWidth (results : List Row) (col : String) : Nat :=
  min (max col.length
    (((results.take 20).map (fun row => (rowGet row col).length)).foldl max 0)) 30

/-- One rendered cell: the value sliced to the column width then left
justified (`str(row.get(col, ''))[:w].ljust(w)`). -/
def renderCell (v : String) (w : Nat) : String :=
  ljust (strTake v w) w

/-- The rule line inserted between consecutive batches. -/
def batchSeparator : String := "\n" ++ charRepeat '=' 60 ++ "\n"

/-- The lines a non-empty batch contributes: header, dash rule, one line per
row, and the row-count summary. -/
def batchLines (results : List Row) : List String :=
  let columns := batchColumns results
  let header := String.intercalate " | "
    (columns.map (fun col => ljust col (colWidth results col)))
  [header, charRepeat '-' header.length] ++
  results.map (fun row => String.intercalate " | "
    (columns.map (fun col => renderCell (rowGet row col) (colWidth results col)))) ++
  ["\nRows returned: " ++ toString results.length]

/-- What one batch appends to the output list (the `continue` branch for an
empty batch emits the no-results line instead). -/
def batchOutput (results : List Row) : List String :=
  match results with
  | [] => ["No results returned"]
  | _ => batchLines results

/-- The output list built by the loop of `_format_table_results`: every batch
after the first is preceded by the separator line. -/
def formatOutputList (all_results : List (List Row)) : List String :=
  (all_results.enum.map (fun br =>
    (if br.1 > 0 then [batchSeparator] else []) ++ batchOutput br.2)).flatten

/-- `DirectDBQuery._format_table_results`: the output list joined with
newlines. -/
def formatTableResults (all_results : List (List Row)) : String :=
  String.intercalate "\n" (formatOutputList all_results)

/-! ### Concrete inputs used by the claims -/

/-- The table `t(id INTEGER PRIMARY KEY, created_at TEXT, score REAL)` with
5 rows. -/
def tSchema : SchemaInfo :=
  { table := "t"
    columns := [⟨"id", "INTEGER", false, true⟩, ⟨"created_at", "TEXT", false, false⟩,
                ⟨"score", "REAL", false, false⟩]
    row_count := 5
    indexes := [] }

/-- Introspection for a database whose only table is `t`. -/
def tGetSchema : String → Option SchemaInfo :=
  fun n => if n == "t" then some tSchema else none

/-- `users(id INTEGER PRIMARY KEY, name TEXT)` with 2 rows. -/
def usersSchema : SchemaInfo :=
  { table := "users"
    columns := [⟨"id", "INTEGER", false, true⟩, ⟨"name", "TEXT", false, false⟩]
    row_count := 2
    indexes := [] }

/-- `posts(id INTEGER PRIMARY KEY, user_id INTEGER, title TEXT)` with 3 rows. -/
def postsSchema : SchemaInfo :=
  { table := "posts"
    columns := [⟨"id", "INTEGER", false, true⟩, ⟨"user_id", "INTEGER", false, false⟩,
                ⟨"title", "TEXT", false, false⟩]
    row_count := 3
    indexes := [] }

/-- Same as `postsSchema` but the foreign-key column is named `users_id`,
which does embed the full table name `users`. -/
def postsSchemaB : SchemaInfo :=
  { table := "posts"
    columns := [⟨"id", "INTEGER", false, true⟩, ⟨"users_id", "INTEGER", false, false⟩,
                ⟨"title", "TEXT", false, false⟩]
    row_count := 3
    indexes := [] }

/-- Introspection for the `posts`/`users` database. -/
def db2Get : String → Option SchemaInfo :=
  fun n => if n == "users" then some usersSchema
    else if n == "posts" then some postsSchema else none

/-- Introspection for the variant with column `users_id`. -/
def db2GetB : String → Option SchemaInfo :=
  fun n => if n == "users" then some usersSchema
    else if n == "posts" then some postsSchemaB else none

/-- A classification with four numeric columns of which three (`a`, `b`, `c`)
do not contain `id`, while the id-containing one comes first. -/
def taNumeric : TableAnalysis :=
  { row_count := 0
    column_types := [("user_id", "INTEGER"), ("a", "REAL"), ("b", "REAL"), ("c", "REAL")]
    date_columns := []
    numeric_columns := ["user_id", "a", "b", "c"]
    text_columns := []
    primary_keys := []
    has_timestamps := false }

/-! ## Theorems -/

/-! ### Helper lemmas -/

theorem toList_append (a b : String) : (a ++ b).toList = a.toList ++ b.toList := rfl

theorem strAppend_assoc (a b c : String) : a ++ b ++ c = a ++ (b ++ c) := by
  cases a with | mk da => cases b with | mk db => cases c with | mk dc =>
  show String.mk ((da ++ db) ++ dc) = String.mk (da ++ (db ++ dc))
  rw [List.append_assoc]

theorem isPrefixOf_append_self (l t : List Char) : l.isPrefixOf (l ++ t) = true := by
  induction l with
  | nil => simp [List.isPrefixOf]
  | cons a as ih => simp [List.isPrefixOf, ih]

/-- If neither of two lists is a prefix of the other, they disagree at some
position both of them reach, so extending the second cannot make the first a
prefix of it. -/
theorem isPrefixOf_append_ne (p : List Char) (rest : List Char) :
    ∀ l : List Char, p.isPrefixOf l = false → l.isPrefixOf p = false →
      p.isPrefixOf (l ++ rest) = false := by
  induction p with
  | nil => intro l h1 _; simp [List.isPrefixOf] at h1
  | cons a as ih =>
    intro l h1 h2
    cases l with
    | nil => simp [List.isPrefixOf] at h2
    | cons b bs =>
      simp only [List.isPrefixOf] at h1 h2
      simp only [List.cons_append, List.isPrefixOf]
      cases hab : (a == b) with
      | false => simp [hab]
      | true =>
        have hba : (b == a) = true := by
          have := eq_of_beq hab; subst this; exact hab
        simp only [hab, hba, Bool.true_and] at h1 h2 ⊢
        exact ih bs h1 h2

/-- `startswith` on a string with a known leading literal: positive case. -/
theorem startsWith_self_prepend (p s : String) : startsWithS (p ++ s) p = true := by
  unfold startsWithS
  rw [toList_append]
  exact isPrefixOf_append_self _ _

/-- `startswith` on a string with a known leading literal: mismatch case. -/
theorem startsWith_mismatch (lit p s : String)
    (h1 : p.toList.isPrefixOf lit.toList = false)
    (h2 : lit.toList.isPrefixOf p.toList = false) :
    startsWithS (lit ++ s) p = false := by
  unfold startsWithS
  rw [toList_append]
  exact isPrefixOf_append_ne _ _ _ h1 h2

theorem recordColumn_has (a : TableAnalysis) (n ty : String) (pk : Bool) :
    (recordColumn a n ty pk).has_timestamps = a.has_timestamps := by
  simp [recordColumn, apply_ite TableAnalysis.has_timestamps]

theorem recordColumn_date (a : TableAnalysis) (n ty : String) (pk : Bool) :
    (recordColumn a n ty pk).date_columns = a.date_columns := by
  simp [recordColumn, apply_ite TableAnalysis.date_columns]

theorem typeClassify_has (a : TableAnalysis) (n ty : String) :
    (typeClassify a n ty).has_timestamps = a.has_timestamps := by
  simp [typeClassify, apply_ite TableAnalysis.has_timestamps]

theorem typeClassify_date (a : TableAnalysis) (n ty : String) :
    (typeClassify a n ty).date_columns =
      (if isNumericType ty then a.date_columns
       else if isTextType ty then a.date_columns
       else if isDateType ty then a.date_columns ++ [n]
       else a.date_columns) := by
  simp [typeClassify, apply_ite TableAnalysis.date_columns]

theorem timestampStep_no_fire (a : TableAnalysis) (n : String)
    (h : nameTimestampHeuristic n = false) : timestampStep a n = a := by
  simp [timestampStep, h]

theorem timestampStep_keeps (a : TableAnalysis) (n : String)
    (h : a.has_timestamps = true → a.date_columns ≠ []) :
    (timestampStep a n).has_timestamps = true →
    (timestampStep a n).date_columns ≠ [] := by
  cases hname : nameTimestampHeuristic n with
  | false => simpa [timestampStep, hname] using h
  | true =>
    cases hc : a.date_columns.contains n with
    | true =>
      have hc' : n ∈ a.date_columns := by simpa using hc
      have hne : a.date_columns ≠ [] := List.ne_nil_of_mem hc'
      intro _
      simp [timestampStep, hname, hc', hne]
    | false =>
      have hc' : ¬ n ∈ a.date_columns := by simpa using hc
      intro _
      simp [timestampStep, hname, hc']

theorem strAppend_nil (s : String) : s ++ String.mk [] = s := by
  cases s with | mk d =>
  show String.mk (d ++ []) = String.mk d
  rw [List.append_nil]

theorem strTake_length (v : String) (w : Nat) :
    (strTake v w).length = min w v.length := by
  cases v with | mk d =>
  simp [strTake, String.length]

/-- Every batch after the first is preceded by the separator line: the tail of
the enumeration has only positive indices. -/
theorem enumFromOut (bs : List (List Row)) :
    ∀ k : Nat,
      ((List.enumFrom (k+1) bs).map (fun br =>
        (if br.1 > 0 then [batchSeparator] else []) ++ batchOutput br.2)).flatten =
      bs.flatMap (fun b => batchSeparator :: batchOutput b) := by
  induction bs with
  | nil => intro k; simp
  | cons b rest ih =>
    intro k
    simp only [List.enumFrom, List.map_cons, List.flatten_cons]
    rw [ih (k+1)]
    simp

/-- The numeric loop of `_generate_table_queries` as filter-then-map. -/
theorem statsFoldEq (t : String) (l : List String) :
    ∀ init : List QueryCandidate,
      l.foldl (fun qs num_col =>
        if containsSub (strLower num_col) "id" then qs
        else qs ++ [statsQuery t num_col]) init =
      init ++ (l.filter (fun c => !(containsSub (strLower c) "id"))).map (statsQuery t) := by
  induction l with
  | nil => intro init; simp
  | cons c cs ih =>
    intro init
    cases h : containsSub (strLower c) "id" with
    | true => simp [h, ih]
    | false => simp [h, ih]

/-- The text loop of `_generate_table_queries` as filter-then-map. -/
theorem popularFoldEq (t : String) (l : List String) :
    ∀ init : List QueryCandidate,
      l.foldl (fun qs text_col =>
        if textNameKeywords.any (fun k => containsSub (strLower text_col) k) then
          qs ++ [popularQuery t text_col]
        else qs) init =
      init ++ (l.filter (fun c =>
        textNameKeywords.any (fun k => containsSub (strLower c) k))).map (popularQuery t) := by
  induction l with
  | nil => intro init; simp
  | cons c cs ih =>
    intro init
    cases h : textNameKeywords.any (fun k => containsSub (strLower c) k) with
    | true => simp [h, ih, -List.any_eq_true]
    | false => simp [h, ih, -List.any_eq_true]

/-- `_generate_table_queries` decomposed into its four candidate groups:
row-count-gated sampling and counting, first-date-column queries, statistics
for the non-id columns among the **first three** numeric columns, and
frequency queries for the keyword-named among the first two text columns. -/
theorem generateTableQueries_eq (t : String) (ta : TableAnalysis) :
    generateTableQueries t ta =
      (if ta.row_count > 0 then [sampleQuery t, countQuery t] else []) ++
      ((match ta.date_columns with
        | [] => []
        | date_col :: _ => [recentQuery t date_col, dateRangeQuery t date_col]) ++
      (((ta.numeric_columns.take 3).filter
        (fun c => !(containsSub (strLower c) "id"))).map (statsQuery t) ++
      ((ta.text_columns.take 2).filter
        (fun c => textNameKeywords.any (fun k => containsSub (strLower c) k))).map
          (popularQuery t))) := by
  obtain ⟨rc, cts, dcs, ncs, tcs, pks, hts⟩ := ta
  simp only [generateTableQueries]
  rw [statsFoldEq, popularFoldEq]
  cases dcs with
  | nil => by_cases h : rc > 0 <;> simp [h]
  | cons d ds => by_cases h : rc > 0 <;> simp [h]

/-- C1, counterexample: analyzing `t(id INTEGER PRIMARY KEY, created_at TEXT,
score REAL)` with 5 rows classifies `id` as numeric too (its declared type
contains `INT`), so `numeric_columns` is `[id, score]`, not `[score]` as the
claim states. -/
theorem c1_counterexample :
    (analyzeDatabaseSchema "db" ["t"] tGetSchema).tables =
      [("t", analyzeTableSchema tSchema)] ∧
    (analyzeTableSchema tSchema).numeric_columns = ["id", "score"] ∧
    ¬ (analyzeTableSchema tSchema).numeric_columns = ["score"] := by
  decide

/-- C1, amended: for the table `t(id INTEGER PRIMARY KEY, created_at TEXT,
score REAL)` with 5 rows, the analysis classifies `numeric_columns =
[id, score]` (the `INTEGER` primary key is numeric as well) and
`date_columns = [created_at]`, and the suggested queries contain
`sample_t`, `count_t`, `recent_t`, `date_range_t` and `stats_t_score` but no
`stats_t_id` candidate. -/
theorem c1_analyze_t :
    (analyzeDatabaseSchema "db" ["t"] tGetSchema).tables.map
      (fun p => (p.1, p.2.numeric_columns, p.2.date_columns)) =
      [("t", ["id", "score"], ["created_at"])] ∧
    ((analyzeDatabaseSchema "db" ["t"] tGetSchema).suggested_queries.map
      QueryCandidate.name) =
      ["sample_t", "count_t", "recent_t", "date_range_t", "stats_t_score"] ∧
    "sample_t" ∈ ((analyzeDatabaseSchema "db" ["t"] tGetSchema).suggested_queries.map
      QueryCandidate.name) ∧
    ¬ "stats_t_id" ∈ ((analyzeDatabaseSchema "db" ["t"] tGetSchema).suggested_queries.map
      QueryCandidate.name) := by
  decide

/-- C2, counterexample: in the database with tables `users(id, name)` and
`posts(id, user_id, title)`, relationship inference emits no edge at all; in
particular `posts.user_id -> users` is missing, because the full table name
`users` is not a prefix, suffix or substring of the column name `user_id`. -/
theorem c2_counterexample :
    potentialRelationships (analyzeDatabaseSchema "db" ["posts", "users"] db2Get).tables
      = [] ∧
    ¬ ("posts", "user_id", "users") ∈
      potentialRelationships (analyzeDatabaseSchema "db" ["posts", "users"] db2Get).tables := by
  decide

/-- C2, amended: for the `users`/`posts` database the heuristic requires the
full lowercased table name to occur in the column name, so `posts.user_id`
produces no edge towards `users`; renaming the column to `users_id` makes the
edge `posts.users_id -> users` appear (and it is then reported in the
insights line). -/
theorem c2_relationship_heuristic :
    potentialRelationships (analyzeDatabaseSchema "db" ["posts", "users"] db2Get).tables
      = [] ∧
    potentialRelationships (analyzeDatabaseSchema "db" ["posts", "users"] db2GetB).tables
      = [("posts", "users_id", "users")] ∧
    "Potential relationships: posts.users_id -> users" ∈
      (analyzeDatabaseSchema "db" ["posts", "users"] db2GetB).insights := by
  decide

/-- C3, counterexample: for a classification whose numeric columns are
`user_id, a, b, c` there are three qualifying (non-id) numeric columns, yet
only two `stats_*` candidates are emitted: the slice `[:3]` is taken before
the id-filter, so `user_id` consumes one of the three slots. -/
theorem c3_counterexample :
    3 ≤ (taNumeric.numeric_columns.filter
      (fun c => !(containsSub (strLower c) "id"))).length ∧
    ((generateTableQueries "t" taNumeric).filter
      (fun q => startsWithS q.name "stats_")).map QueryCandidate.name =
      ["stats_t_a", "stats_t_b"] ∧
    ¬ ((generateTableQueries "t" taNumeric).filter
      (fun q => startsWithS q.name "stats_")).length = 3 := by
  decide

/-- C3, amended: the `stats_*` candidates are exactly one per qualifying
(non-id, case-insensitively) column among the **first three** numeric columns
in column order; the cap of 3 counts examined numeric columns, so id-containing
columns among the first three use up slots and fewer than three `stats_*`
candidates may be emitted even when three qualifying columns exist. -/
theorem c3_stats_cap (t : String) (ta : TableAnalysis) :
    (generateTableQueries t ta).filter (fun q => startsWithS q.name "stats_") =
      ((ta.numeric_columns.take 3).filter
        (fun c => !(containsSub (strLower c) "id"))).map (statsQuery t) := by
  have hsample : ∀ s, startsWithS ("sample_" ++ s) "stats_" = false :=
    fun s => startsWith_mismatch "sample_" "stats_" s (by decide) (by decide)
  have hcount : ∀ s, startsWithS ("count_" ++ s) "stats_" = false :=
    fun s => startsWith_mismatch "count_" "stats_" s (by decide) (by decide)
  have hrecent : ∀ s, startsWithS ("recent_" ++ s) "stats_" = false :=
    fun s => startsWith_mismatch "recent_" "stats_" s (by decide) (by decide)
  have hdr : ∀ s, startsWithS ("date_range_" ++ s) "stats_" = false :=
    fun s => startsWith_mismatch "date_range_" "stats_" s (by decide) (by decide)
  have hpop : ∀ s, startsWithS ("popular_" ++ s) "stats_" = false :=
    fun s => startsWith_mismatch "popular_" "stats_" s (by decide) (by decide)
  have hstats : ∀ s, startsWithS ("stats_" ++ s) "stats_" = true :=
    fun s => startsWith_self_prepend "stats_" s
  obtain ⟨rc, cts, dcs, ncs, tcs, pks, hts⟩ := ta
  rw [generateTableQueries_eq]
  cases dcs with
  | nil => by_cases h : rc > 0 <;>
      simp [h, sampleQuery, countQuery, recentQuery, dateRangeQuery, statsQuery,
        popularQuery, List.filter_append, List.filter_map, Function.comp,
        strAppend_assoc, hsample, hcount, hrecent, hdr, hpop, hstats]
  | cons d ds => by_cases h : rc > 0 <;>
      simp [h, sampleQuery, countQuery, recentQuery, dateRangeQuery, statsQuery,
        popularQuery, List.filter_append, List.filter_map, Function.comp,
        strAppend_assoc, hsample, hcount, hrecent, hdr, hpop, hstats]

/-- C4, amended: `_generate_database_insights` itself is total and always
starts with the table/row-count summary line; on an empty per-table map it
yields exactly the zero-tables/zero-rows line.  However `analyze_database_schema`
returns early for a database with zero tables, so the full analysis of an
empty database has an empty insights list. -/
theorem c4_empty_db_insights :
    generateDatabaseInsights [] = ["Database contains 0 tables with 0 total rows"] ∧
    (∀ m : List (String × TableAnalysis),
      (generateDatabaseInsights m).head? =
        some (summaryLine m.length ((m.map (fun p => p.2.row_count)).sum))) ∧
    (∀ (p : String) (g : String → Option SchemaInfo),
      (analyzeDatabaseSchema p [] g).insights = []) := by
  refine ⟨by decide, fun m => ?_, fun p g => by simp [analyzeDatabaseSchema]⟩
  simp only [generateDatabaseInsights]
  split <;> split <;> (try split) <;> simp

/-- C4, counterexample: `analyze_database_schema` returns early for a database
with zero tables, so its `insights` list is empty and in particular does not
contain the zero-tables/zero-rows summary line. -/
theorem c4_counterexample :
    (analyzeDatabaseSchema "db" [] (fun _ => none)).insights = [] ∧
    ¬ "Database contains 0 tables with 0 total rows" ∈
      (analyzeDatabaseSchema "db" [] (fun _ => none)).insights := by
  decide

/-- C5: if `row_count = 0` no suggested query is named with a `sample_` or
`count_` prefix, and if `row_count > 0` both `sample_<table>` and
`count_<table>` are among the suggested query names. -/
theorem c5_sample_count_gating (t : String) (ta : TableAnalysis) :
    (ta.row_count = 0 →
      ((generateTableQueries t ta).all
        (fun q => !(startsWithS q.name "sample_") && !(startsWithS q.name "count_"))) = true) ∧
    (0 < ta.row_count →
      ("sample_" ++ t) ∈ (generateTableQueries t ta).map QueryCandidate.name ∧
      ("count_" ++ t) ∈ (generateTableQueries t ta).map QueryCandidate.name) := by
  have hrs : ∀ s, startsWithS ("recent_" ++ s) "sample_" = false :=
    fun s => startsWith_mismatch "recent_" "sample_" s (by decide) (by decide)
  have hrc : ∀ s, startsWithS ("recent_" ++ s) "count_" = false :=
    fun s => startsWith_mismatch "recent_" "count_" s (by decide) (by decide)
  have hds : ∀ s, startsWithS ("date_range_" ++ s) "sample_" = false :=
    fun s => startsWith_mismatch "date_range_" "sample_" s (by decide) (by decide)
  have hdc : ∀ s, startsWithS ("date_range_" ++ s) "count_" = false :=
    fun s => startsWith_mismatch "date_range_" "count_" s (by decide) (by decide)
  have hss : ∀ s, startsWithS ("stats_" ++ s) "sample_" = false :=
    fun s => startsWith_mismatch "stats_" "sample_" s (by decide) (by decide)
  have hsc : ∀ s, startsWithS ("stats_" ++ s) "count_" = false :=
    fun s => startsWith_mismatch "stats_" "count_" s (by decide) (by decide)
  have hps : ∀ s, startsWithS ("popular_" ++ s) "sample_" = false :=
    fun s => startsWith_mismatch "popular_" "sample_" s (by decide) (by decide)
  have hpc : ∀ s, startsWithS ("popular_" ++ s) "count_" = false :=
    fun s => startsWith_mismatch "popular_" "count_" s (by decide) (by decide)
  obtain ⟨rc, cts, dcs, ncs, tcs, pks, hts⟩ := ta
  constructor
  · intro h0
    simp only at h0
    subst h0
    rw [List.all_eq_true]
    intro q hq
    rw [generateTableQueries_eq] at hq
    simp only [gt_iff_lt, lt_self_iff_false, if_false, List.nil_append,
      List.mem_append, List.mem_map] at hq
    rcases hq with hq | ⟨c, _, rfl⟩ | ⟨c, _, rfl⟩
    · cases dcs with
      | nil => simp at hq
      | cons d ds =>
        simp only [List.mem_cons, List.mem_singleton] at hq
        rcases hq with rfl | rfl | hq
        · simp [recentQuery, hrs, hrc]
        · simp [dateRangeQuery, hds, hdc]
        · simp at hq
    · simp [statsQuery, strAppend_assoc, hss, hsc]
    · simp [popularQuery, strAppend_assoc, hps, hpc]
  · intro hpos
    rw [generateTableQueries_eq]
    simp only [gt_iff_lt] at hpos ⊢
    refine ⟨?_, ?_⟩ <;>
      simp [hpos, sampleQuery, countQuery]

/-- C6: every candidate relationship edge has a source table different from
its target table; the guard `other_table != table_name` makes self-edges
impossible for every per-table classification map. -/
theorem c6_no_self_edges (m : List (String × TableAnalysis)) :
    ((potentialRelationships m).all (fun e => e.1 != e.2.2)) = true := by
  rw [List.all_eq_true]
  intro e he
  unfold potentialRelationships at he
  simp only [List.mem_flatMap, List.mem_map, List.mem_filter] at he
  obtain ⟨ta, hta, ct, hct, ot, ⟨hot, hcond⟩, rfl⟩ := he
  have h1 : (ot != ta.1) = true := by
    simp only [Bool.and_eq_true] at hcond
    exact hcond.1
  simp only [bne_iff_ne] at h1 ⊢
  exact Ne.symm h1

/-- C5, witness: the gating theorem applied to the zero-row classification
`taNumeric` and to the 5-row table `t`. -/
theorem c5_sample_count_gating_witness :
    ((generateTableQueries "t" taNumeric).all
      (fun q => !(startsWithS q.name "sample_") && !(startsWithS q.name "count_"))) = true ∧
    ("sample_" ++ "t") ∈ (generateTableQueries "t" (analyzeTableSchema tSchema)).map
      QueryCandidate.name ∧
    ("count_" ++ "t") ∈ (generateTableQueries "t" (analyzeTableSchema tSchema)).map
      QueryCandidate.name :=
  ⟨(c5_sample_count_gating "t" taNumeric).1 rfl,
   (c5_sample_count_gating "t" (analyzeTableSchema tSchema)).2 (by decide)⟩

/-- C7: a disqualifying keyword (`score`, `label`, `amount`, `value`) in the
lowercased column name makes the timestamp name heuristic false, so the
column leaves `has_timestamps` unchanged and is added to `date_columns` only
when the declared-type rule (a non-numeric, non-text type containing `DATE`
or `TIME`) fires, never by name. -/
theorem c7_disqualifier_blocks (a : TableAnalysis) (col : ColumnInfo)
    (h : disqualifyingKeywords.any (fun k => containsSub (strLower col.name) k) = true) :
    nameTimestampHeuristic col.name = false ∧
    (analyzeColumn a col).has_timestamps = a.has_timestamps ∧
    (analyzeColumn a col).date_columns =
      (if isNumericType (strUpper col.type) then a.date_columns
       else if isTextType (strUpper col.type) then a.date_columns
       else if isDateType (strUpper col.type) then a.date_columns ++ [col.name]
       else a.date_columns) := by
  have hh : nameTimestampHeuristic col.name = false := by
    unfold nameTimestampHeuristic
    simp [h]
  refine ⟨hh, ?_, ?_⟩ <;>
    rw [analyzeColumn, timestampStep_no_fire _ _ hh]
  · rw [typeClassify_has, recordColumn_has]
  · rw [typeClassify_date, recordColumn_date]

/-- C7, witness: the heuristic-blocking theorem at the column `time_score`
(temporal keyword `time`, disqualifier `score`) of type `REAL`. -/
theorem c7_disqualifier_blocks_witness :
    nameTimestampHeuristic "time_score" = false ∧
    (analyzeColumn (emptyAnalysis 0) ⟨"time_score", "REAL", false, false⟩).has_timestamps =
      (emptyAnalysis 0).has_timestamps ∧
    (analyzeColumn (emptyAnalysis 0) ⟨"time_score", "REAL", false, false⟩).date_columns =
      (if isNumericType (strUpper "REAL") then (emptyAnalysis 0).date_columns
       else if isTextType (strUpper "REAL") then (emptyAnalysis 0).date_columns
       else if isDateType (strUpper "REAL") then (emptyAnalysis 0).date_columns ++ ["time_score"]
       else (emptyAnalysis 0).date_columns) :=
  c7_disqualifier_blocks (emptyAnalysis 0) ⟨"time_score", "REAL", false, false⟩ (by decide)

/-- C9: a table whose introspection fails (`get_table_schema` returns an
error) is skipped: the analysis report's per-table map is exactly the
introspectable tables in order, each analyzed normally, and the suggested
queries are exactly those generated for the introspectable tables — one bad
table never fails the overall report. -/
theorem c9_skip_failing_table (p : String) (tables : List String)
    (g : String → Option SchemaInfo) :
    (analyzeDatabaseSchema p tables g).tables =
      tables.filterMap (fun t => (g t).map (fun s => (t, analyzeTableSchema s))) ∧
    (analyzeDatabaseSchema p tables g).suggested_queries =
      (tables.filterMap (fun t => (g t).map (fun s => (t, analyzeTableSchema s)))).flatMap
        (fun q => generateTableQueries q.1 q.2) := by
  have key : ∀ (ts : List String) (A : List (String × TableAnalysis))
      (Q : List QueryCandidate),
      ts.foldl (fun acc table =>
        match g table with
        | none => acc
        | some schema =>
            (acc.1 ++ [(table, analyzeTableSchema schema)],
             acc.2 ++ generateTableQueries table (analyzeTableSchema schema))) (A, Q) =
      (A ++ ts.filterMap (fun t => (g t).map (fun s => (t, analyzeTableSchema s))),
       Q ++ (ts.filterMap (fun t =>
        (g t).map (fun s => (t, analyzeTableSchema s)))).flatMap
          (fun q => generateTableQueries q.1 q.2)) := by
    intro ts
    induction ts with
    | nil => intro A Q; simp
    | cons t ts ih =>
      intro A Q
      cases hg : g t with
      | none => simp [hg, ih]
      | some s => simp [hg, ih]
  cases tables with
  | nil => exact ⟨rfl, rfl⟩
  | cons t ts =>
    simp only [analyzeDatabaseSchema, List.isEmpty_cons, Bool.false_eq_true, if_false]
    rw [key]
    exact ⟨rfl, rfl⟩

/-- The column loop preserves the invariant that `has_timestamps` implies a
non-empty `date_columns`: the heuristic branch that sets the flag also makes
sure the column is present, and no branch ever removes a date column. -/
theorem analyzeColumn_keeps (a : TableAnalysis) (col : ColumnInfo)
    (h : a.has_timestamps = true → a.date_columns ≠ []) :
    (analyzeColumn a col).has_timestamps = true →
    (analyzeColumn a col).date_columns ≠ [] := by
  rw [analyzeColumn]
  apply timestampStep_keeps
  intro hts
  rw [typeClassify_has, recordColumn_has] at hts
  rw [typeClassify_date, recordColumn_date]
  have hne := h hts
  by_cases h1 : isNumericType (strUpper col.type) = true <;>
  by_cases h2 : isTextType (strUpper col.type) = true <;>
  by_cases h3 : isDateType (strUpper col.type) = true <;>
  simp [h1, h2, h3, hne]

/-- The fold of the column loop preserves the same invariant. -/
theorem foldl_keeps (cols : List ColumnInfo) :
    ∀ a : TableAnalysis, (a.has_timestamps = true → a.date_columns ≠ []) →
      ((cols.foldl analyzeColumn a).has_timestamps = true →
       (cols.foldl analyzeColumn a).date_columns ≠ []) := by
  induction cols with
  | nil => intro a h; exact h
  | cons c cs ih => intro a h; exact ih _ (analyzeColumn_keeps a c h)

/-- C10: whenever the classification of a table reports `has_timestamps`,
its `date_columns` list is non-empty. -/
theorem c10_timestamps_nonempty (schema : SchemaInfo) :
    (analyzeTableSchema schema).has_timestamps = true →
    (analyzeTableSchema schema).date_columns ≠ [] := by
  unfold analyzeTableSchema
  refine foldl_keeps _ _ ?_
  intro hfalse
  simp [emptyAnalysis] at hfalse

/-- C10, witness: the invariant applied to table `t`, whose `created_at`
column sets `has_timestamps`. -/
theorem c10_timestamps_nonempty_witness :
    (analyzeTableSchema tSchema).date_columns ≠ [] :=
  c10_timestamps_nonempty tSchema (by decide)

/-- C8: in human-mode rendering (i) every column's width is the minimum of 30
and the larger of the header length and the longest value among the first 20
rows of the batch; (ii) a value longer than the width renders as exactly the
width-character slice, not wrapped; (iii) each batch after the first is
preceded by the rule line; (iv) every non-empty batch's lines end with the
row-count summary counting all of its rows; and (v) the spec's concrete
example renders with `Rows returned: 1`, a rule line, and
`No results returned`. -/
theorem c8_renderer :
    (∀ (results : List Row) (col : String),
      colWidth results col =
        min 30 (max col.length
          (((results.take 20).map (fun row => (rowGet row col).length)).foldl max 0))) ∧
    (∀ (v : String) (w : Nat), w < v.length →
      renderCell v w = strTake v w ∧ (renderCell v w).length = w) ∧
    (∀ (b : List Row) (bs : List (List Row)),
      formatOutputList (b :: bs) =
        batchOutput b ++ bs.flatMap (fun b2 => batchSeparator :: batchOutput b2)) ∧
    (∀ (r : Row) (rs : List Row),
      (batchOutput (r :: rs)).getLast? =
        some ("\nRows returned: " ++ toString (r :: rs).length)) ∧
    formatTableResults [[[("a", "x"), ("b", "1")]], []] =
      "a | b\n-----\nx | 1\n\nRows returned: 1\n\n============================================================\n\nNo results returned" := by
  refine ⟨?_, ?_, ?_, ?_, by decide⟩
  · intro results col
    unfold colWidth
    rw [Nat.min_comm]
  · intro v w hw
    have hlen : (strTake v w).length = w := by
      rw [strTake_length]
      omega
    have hcell : renderCell v w = strTake v w := by
      unfold renderCell ljust
      rw [hlen, Nat.sub_self]
      exact strAppend_nil _
    exact ⟨hcell, by rw [hcell, hlen]⟩
  · intro b bs
    simp only [formatOutputList, List.enum, List.enumFrom, List.map_cons,
      List.flatten_cons]
    rw [show (0:Nat) + 1 = 1 from rfl, enumFromOut bs 0]
    simp
  · intro r rs
    show (batchLines (r :: rs)).getLast? = _
    simp only [batchLines]
    rw [List.getLast?_concat]

/-- C8, witness: the truncation part of the renderer theorem applied to the
6-character value `abcdef` in a column of width 3. -/
theorem c8_renderer_witness :
    renderCell "abcdef" 3 = strTake "abcdef" 3 ∧ (renderCell "abcdef" 3).length = 3 :=
  c8_renderer.2.1 "abcdef" 3 (by decide)

end QueryDB
